import Mathlib

/-
Verification of the payment-reminder / debt-escalation scheduler of the
law-firm portal (src/abogados/src/services/reportsService.ts, class
CollectionService, together with emailService.ts).

Embedding conventions:
* Calendar dates are modelled at whole-day granularity as `Int` day numbers.
  The source computes `daysUntilDue = Math.ceil((dueDate - today) / msPerDay)`
  on midnight-aligned dates, which is exactly `dueDate - today` in days, and
  `scheduledFor.setDate(getDate() + k)` adds `k` days.
* The count field `maxReminders` is modelled as `Nat`; `Array.slice(0, n)`
  on a non-negative count is `List.take n`.
* Monetary amounts and ids are carried verbatim (Int / String); they do not
  influence control flow.
* The asynchronous email call in `sendReminder` either resolves with an
  `EmailResponse` (whose `success` field the source ignores) or rejects
  (throws); this is an explicit `EmailOutcome` parameter.  `sendReminder`
  propagates a rejection, modelled with `Except`.
-/

/-- Reminder escalation tiers, from `type ReminderType` in reportsService.ts. -/
inductive ReminderType where
  | due_soon
  | overdue_1
  | overdue_7
  | overdue_14
  | overdue_30
  | final_warning
  deriving DecidableEq, Repr

/-- Reminder dispatch status, from `type ReminderStatus` in reportsService.ts. -/
inductive ReminderStatus where
  | pending
  | sent
  | failed
  | cancelled
  deriving DecidableEq, Repr

/-- Cadence configuration, from `interface ReminderConfig`. -/
structure ReminderConfig where
  daysBeforeDue : List Int
  daysAfterDue : List Int
  enableEmail : Bool
  enablePush : Bool
  maxReminders : Nat
  deriving DecidableEq, Repr

/-- A planned or dispatched reminder, from `interface Reminder`.
`scheduledFor` and `sentAt` are day numbers. -/
structure Reminder where
  id : String
  invoiceId : String
  clientId : String
  clientEmail : String
  type : ReminderType
  scheduledFor : Int
  sentAt : Option Int := none
  status : ReminderStatus
  template : String
  deriving DecidableEq, Repr

/-- Invoice snapshot used for planning, from `interface InvoiceReminderData`.
`dueDate` is a day number (the source parses the ISO string with `new Date`). -/
structure InvoiceReminderData where
  invoiceId : String
  clientId : String
  clientName : String
  clientEmail : String
  amount : Int
  dueDate : Int
  caseTitle : Option String := none
  deriving DecidableEq, Repr

/-- The module-level `DEFAULT_CONFIG` constant of reportsService.ts. -/
def DEFAULT_CONFIG : ReminderConfig :=
  { daysBeforeDue := [3, 1]
    daysAfterDue := [1, 7, 14, 30]
    enableEmail := true
    enablePush := true
    maxReminders := 5 }

/-- Tier computed in the after-due loop of `calculateReminders`: the source
initialises `type = 'overdue_1'` and then reassigns through the cascade
`if (days >= 7) ... if (days >= 14) ... if (days >= 30) ...`, so the last
satisfied threshold wins. -/
def overdueType (days : Int) : ReminderType :=
  if days ≥ 30 then .overdue_30
  else if days ≥ 14 then .overdue_14
  else if days ≥ 7 then .overdue_7
  else .overdue_1

/-- The reminder object pushed in the before-due loop of `calculateReminders`. -/
def beforeDueReminder (invoice : InvoiceReminderData) (today daysUntilDue days : Int) :
    Reminder :=
  { id := "rem_" ++ invoice.invoiceId ++ "_before_" ++ toString days
    invoiceId := invoice.invoiceId
    clientId := invoice.clientId
    clientEmail := invoice.clientEmail
    type := .due_soon
    scheduledFor := today + (daysUntilDue - days)
    sentAt := none
    status := .pending
    template := if daysUntilDue ≤ 1 then "payment_reminder_urgent" else "payment_reminder" }

/-- The reminder object pushed in the after-due loop of `calculateReminders`. -/
def afterDueReminder (invoice : InvoiceReminderData) (dueDate days : Int) : Reminder :=
  { id := "rem_" ++ invoice.invoiceId ++ "_after_" ++ toString days
    invoiceId := invoice.invoiceId
    clientId := invoice.clientId
    clientEmail := invoice.clientEmail
    type := overdueType days
    scheduledFor := dueDate + days
    sentAt := none
    status := .pending
    template := if days ≥ 30 then "final_warning" else "invoice_overdue" }

/-- `CollectionService.calculateReminders`, parameterised by the configuration
held in `this.config` and by `today` (the source reads `new Date()`).
The two loops push one reminder per qualifying offset, in list order, and the
result is `reminders.slice(0, this.config.maxReminders)`. -/
def calculateReminders (config : ReminderConfig) (today : Int)
    (invoice : InvoiceReminderData) : List Reminder :=
  let dueDate := invoice.dueDate
  let daysUntilDue := dueDate - today
  let before :=
    (config.daysBeforeDue.filter (fun days => daysUntilDue ≥ days)).map
      (fun days => beforeDueReminder invoice today daysUntilDue days)
  let after :=
    (config.daysAfterDue.filter (fun days => daysUntilDue < -days)).map
      (fun days => afterDueReminder invoice dueDate days)
  (before ++ after).take config.maxReminders

/-- Outcome of the awaited `emailService.sendEmail` promise as observed by
`sendReminder`: it either resolves with a response carrying a `success` flag
(which `sendReminder` ignores) or rejects (throws). -/
inductive EmailOutcome where
  | resolves (success : Bool)
  | throws
  deriving DecidableEq, Repr

/-- Response shape of `EmailService.sendEmail` (emailService.ts): the mock
resolves with `success: false` when the service is disabled or the template
is unknown, and with `success: true` otherwise; it never rejects. -/
def emailServiceSendEmail (isEnabled : Bool) (templateKnown : Bool) : EmailOutcome :=
  if !isEnabled then .resolves false
  else if !templateKnown then .resolves false
  else .resolves true

/-- `CollectionService.sendReminder`: when email is enabled it awaits
`emailService.sendEmail` (propagating a rejection, ignoring the resolved
response), then unconditionally sets `reminder.status = 'sent'`,
`reminder.sentAt = new Date()`, and returns `true`. -/
def sendReminder (config : ReminderConfig) (outcome : EmailOutcome) (now : Int)
    (reminder : Reminder) : Except Unit (Bool × Reminder) :=
  if config.enableEmail then
    match outcome with
    | .throws => .error ()
    | .resolves _ =>
        .ok (true, { reminder with status := .sent, sentAt := some now })
  else
    .ok (true, { reminder with status := .sent, sentAt := some now })

/-- Body of the inner loop of `processPendingReminders` for one reminder:
if the reminder is `pending` and already due, attempt the dispatch inside
`try/catch`, incrementing `sent` on a `true` return and `failed` on a `false`
return or a thrown error; otherwise leave the tallies unchanged. -/
def processOneReminder (config : ReminderConfig) (outcomeOf : Reminder → EmailOutcome)
    (today : Int) (acc : Nat × Nat) (reminder : Reminder) : Nat × Nat :=
  if reminder.status = .pending ∧ reminder.scheduledFor ≤ today then
    match sendReminder config (outcomeOf reminder) today reminder with
    | .ok (success, _) => if success then (acc.1 + 1, acc.2) else (acc.1, acc.2 + 1)
    | .error _ => (acc.1, acc.2 + 1)
  else acc

/-- `CollectionService.processPendingReminders`: for each invoice of the batch
it recomputes `calculateReminders` and runs the guarded dispatch loop,
returning the `{ sent, failed }` tallies.  `outcomeOf` supplies the behaviour
of the awaited email promise for each reminder. -/
def processPendingReminders (config : ReminderConfig) (outcomeOf : Reminder → EmailOutcome)
    (today : Int) (invoices : List InvoiceReminderData) : Nat × Nat :=
  invoices.foldl
    (fun acc invoice =>
      (calculateReminders config today invoice).foldl
        (processOneReminder config outcomeOf today) acc)
    (0, 0)

/-
Sample data used by concrete counterexamples and witnesses.  Day numbers are
relative: `today = 0` in all concrete scenarios.
-/

/-- Invoice whose due date is 3 days after today (today = 0). -/
def invoiceDueIn3 : InvoiceReminderData :=
  { invoiceId := "INV-1", clientId := "CLI-1", clientName := "Cliente Uno",
    clientEmail := "uno@example.com", amount := 100, dueDate := 3 }

/-- Invoice that is exactly 10 days overdue (today = 0). -/
def invoiceOverdue10 : InvoiceReminderData :=
  { invoiceId := "INV-2", clientId := "CLI-1", clientName := "Cliente Uno",
    clientEmail := "uno@example.com", amount := 250, dueDate := -10 }

/-- Invoice due far in the future, 100 days after today (today = 0). -/
def invoiceDueIn100 : InvoiceReminderData :=
  { invoiceId := "INV-3", clientId := "CLI-1", clientName := "Cliente Uno",
    clientEmail := "uno@example.com", amount := 50, dueDate := 100 }

/-- C7: the result of one planning pass never has more than
`config.maxReminders` entries, and a `maxReminders` of 0 forces the empty
list: `calculateReminders` ends with `slice(0, maxReminders)`. -/
theorem C7_length_le_maxReminders (config : ReminderConfig) (today : Int)
    (invoice : InvoiceReminderData) :
    (calculateReminders config today invoice).length ≤ config.maxReminders ∧
      (config.maxReminders = 0 → calculateReminders config today invoice = []) := by
  constructor
  · simp [calculateReminders]
  · intro h
    simp [calculateReminders, h]

/-- Witness for C7 at a concrete input: with `maxReminders = 0` the planner
returns the empty list even though both before-due offsets qualify. -/
theorem C7_length_le_maxReminders_witness :
    calculateReminders { DEFAULT_CONFIG with maxReminders := 0 } 0 invoiceDueIn3 = [] :=
  (C7_length_le_maxReminders { DEFAULT_CONFIG with maxReminders := 0 } 0 invoiceDueIn3).2 rfl

/-- C8: planning is deterministic — two calls of `calculateReminders` with
identical configuration, current date and invoice data yield identical
output.  The embedding of `calculateReminders` is a pure function of these
three arguments (the source only reads `this.config`, `new Date()` and the
invoice snapshot, and allocates fresh reminder objects), so no side effect on
the invoice or configuration is possible. -/
theorem C8_deterministic (c₁ c₂ : ReminderConfig) (t₁ t₂ : Int)
    (i₁ i₂ : InvoiceReminderData) (hc : c₁ = c₂) (ht : t₁ = t₂) (hi : i₁ = i₂) :
    calculateReminders c₁ t₁ i₁ = calculateReminders c₂ t₂ i₂ := by
  rw [hc, ht, hi]

/-- Witness for C8: two textually identical calls agree at a concrete input. -/
theorem C8_deterministic_witness :
    calculateReminders DEFAULT_CONFIG 0 invoiceDueIn3 =
      calculateReminders DEFAULT_CONFIG 0 invoiceDueIn3 :=
  C8_deterministic DEFAULT_CONFIG DEFAULT_CONFIG 0 0 invoiceDueIn3 invoiceDueIn3
    rfl rfl rfl

/-- C10: `sendReminder` marks the reminder `sent` and returns `true` in every
case in which the awaited email call does not throw — including when email is
disabled (the call is skipped entirely) and when `sendEmail` resolves with
`success: false` (the resolved value is ignored) — and it propagates an error
only when email is enabled and the awaited call throws. -/
theorem C10_sendReminder_always_sent (config : ReminderConfig) (outcome : EmailOutcome)
    (now : Int) (reminder : Reminder) :
    (¬(config.enableEmail = true ∧ outcome = .throws) →
        sendReminder config outcome now reminder =
          .ok (true, { reminder with status := .sent, sentAt := some now })) ∧
      (config.enableEmail = true → outcome = .throws →
        sendReminder config outcome now reminder = .error ()) := by
  constructor
  · intro h
    unfold sendReminder
    cases he : config.enableEmail with
    | false => simp
    | true =>
        cases outcome with
        | resolves s => simp
        | throws => exact absurd ⟨he, rfl⟩ h
  · intro he ho
    subst ho
    simp [sendReminder, he]

/-- Witness for C10: with email disabled and a `success: false` resolution
(the outcome `emailServiceSendEmail` produces for a disabled service), the
dispatch still returns `true` and the reminder is marked `sent`. -/
theorem C10_sendReminder_always_sent_witness :
    sendReminder { DEFAULT_CONFIG with enableEmail := false }
        (emailServiceSendEmail false true) 0
        (beforeDueReminder invoiceDueIn3 0 3 3) =
      .ok (true, { beforeDueReminder invoiceDueIn3 0 3 3 with
                    status := .sent, sentAt := some 0 }) :=
  (C10_sendReminder_always_sent { DEFAULT_CONFIG with enableEmail := false }
      (emailServiceSendEmail false true) 0 (beforeDueReminder invoiceDueIn3 0 3 3)).1
    (by simp)

/-- C3 counterexample: for the concrete invoice due in 3 days (today = 0) and
the default configuration (before-due offsets `[3, 1]`, no qualifying
after-due offset since the invoice is not overdue), the planner returns two
events, not exactly one. -/
theorem C3_counterexample :
    (calculateReminders DEFAULT_CONFIG 0 invoiceDueIn3).length = 2 := by decide

/-- C3 amended: with `dueDate = today + 3` and the default cadence, the
planner returns one due-soon event per qualifying before-due offset — the
offset-3 event scheduled for today and the offset-1 event scheduled for
`today + 2` — both with the standard (non-urgent) template; the source has no
"nearest offset wins" rule. -/
theorem C3_two_due_soon_events (today : Int) (invoice : InvoiceReminderData)
    (h : invoice.dueDate = today + 3) :
    calculateReminders DEFAULT_CONFIG today invoice =
      [{ id := "rem_" ++ invoice.invoiceId ++ "_before_3",
         invoiceId := invoice.invoiceId, clientId := invoice.clientId,
         clientEmail := invoice.clientEmail, type := .due_soon,
         scheduledFor := today, sentAt := none, status := .pending,
         template := "payment_reminder" },
       { id := "rem_" ++ invoice.invoiceId ++ "_before_1",
         invoiceId := invoice.invoiceId, clientId := invoice.clientId,
         clientEmail := invoice.clientEmail, type := .due_soon,
         scheduledFor := today + 2, sentAt := none, status := .pending,
         template := "payment_reminder" }] := by
  have e3 : toString (3 : Int) = "3" := rfl
  have e1 : toString (1 : Int) = "1" := rfl
  simp [calculateReminders, DEFAULT_CONFIG, beforeDueReminder, h,
    add_sub_cancel_left, List.filter, e3, e1]
  constructor <;> (simp only [String.append_assoc]; rfl)

/-- Witness for C3 at the concrete invoice due in 3 days. -/
theorem C3_two_due_soon_events_witness :
    calculateReminders DEFAULT_CONFIG 0 invoiceDueIn3 =
      [{ id := "rem_" ++ invoiceDueIn3.invoiceId ++ "_before_3",
         invoiceId := invoiceDueIn3.invoiceId, clientId := invoiceDueIn3.clientId,
         clientEmail := invoiceDueIn3.clientEmail, type := .due_soon,
         scheduledFor := 0, sentAt := none, status := .pending,
         template := "payment_reminder" },
       { id := "rem_" ++ invoiceDueIn3.invoiceId ++ "_before_1",
         invoiceId := invoiceDueIn3.invoiceId, clientId := invoiceDueIn3.clientId,
         clientEmail := invoiceDueIn3.clientEmail, type := .due_soon,
         scheduledFor := 0 + 2, sentAt := none, status := .pending,
         template := "payment_reminder" }] :=
  C3_two_due_soon_events 0 invoiceDueIn3 (by decide)

/-- C4 counterexample: for the concrete invoice 10 days overdue (today = 0)
and the default after-due offsets `[1, 7, 14, 30]`, the planner returns two
events — an `overdue_1` event and an `overdue_7` event — not a single
`overdue_7` event: the qualifying 1-day offset is not superseded. -/
theorem C4_counterexample :
    (calculateReminders DEFAULT_CONFIG 0 invoiceOverdue10).map Reminder.type =
      [.overdue_1, .overdue_7] := by decide

/-- C4 amended: with `dueDate = today − 10` and the default cadence, the
planner returns two events, one per qualifying after-due offset: the 1-day
offset gives an `overdue_1` event scheduled for `dueDate + 1` and the 7-day
offset gives an `overdue_7` event scheduled for `dueDate + 7`; both carry the
`invoice_overdue` template. -/
theorem C4_two_overdue_events (today : Int) (invoice : InvoiceReminderData)
    (h : invoice.dueDate = today - 10) :
    calculateReminders DEFAULT_CONFIG today invoice =
      [{ id := "rem_" ++ invoice.invoiceId ++ "_after_1",
         invoiceId := invoice.invoiceId, clientId := invoice.clientId,
         clientEmail := invoice.clientEmail, type := .overdue_1,
         scheduledFor := invoice.dueDate + 1, sentAt := none, status := .pending,
         template := "invoice_overdue" },
       { id := "rem_" ++ invoice.invoiceId ++ "_after_7",
         invoiceId := invoice.invoiceId, clientId := invoice.clientId,
         clientEmail := invoice.clientEmail, type := .overdue_7,
         scheduledFor := invoice.dueDate + 7, sentAt := none, status := .pending,
         template := "invoice_overdue" }] := by
  have e7 : toString (7 : Int) = "7" := rfl
  have e1 : toString (1 : Int) = "1" := rfl
  norm_num [calculateReminders, DEFAULT_CONFIG, afterDueReminder, overdueType, h,
    List.filter, e7, e1]
  constructor <;> (simp only [String.append_assoc]; rfl)

/-- Witness for C4 at the concrete invoice 10 days overdue. -/
theorem C4_two_overdue_events_witness :
    calculateReminders DEFAULT_CONFIG 0 invoiceOverdue10 =
      [{ id := "rem_" ++ invoiceOverdue10.invoiceId ++ "_after_1",
         invoiceId := invoiceOverdue10.invoiceId, clientId := invoiceOverdue10.clientId,
         clientEmail := invoiceOverdue10.clientEmail, type := .overdue_1,
         scheduledFor := invoiceOverdue10.dueDate + 1, sentAt := none,
         status := .pending, template := "invoice_overdue" },
       { id := "rem_" ++ invoiceOverdue10.invoiceId ++ "_after_7",
         invoiceId := invoiceOverdue10.invoiceId, clientId := invoiceOverdue10.clientId,
         clientEmail := invoiceOverdue10.clientEmail, type := .overdue_7,
         scheduledFor := invoiceOverdue10.dueDate + 7, sentAt := none,
         status := .pending, template := "invoice_overdue" }] :=
  C4_two_overdue_events 0 invoiceOverdue10 (by decide)

/-- The after-due tier cascade never produces the before-due tier. -/
theorem overdueType_ne_due_soon (days : Int) : overdueType days ≠ .due_soon := by
  unfold overdueType
  split_ifs <;> decide

/-- C5 counterexample: the invoice due in 100 days (today = 0) satisfies
`daysUntilDue = 100 > 3 = max(beforeDue)` under the default configuration,
yet the planner does not return the empty list: the before-due condition
`daysUntilDue >= days` holds for every offset of a far-future invoice. -/
theorem C5_counterexample :
    calculateReminders DEFAULT_CONFIG 0 invoiceDueIn100 ≠ [] := by decide

/-- C5 amended: when every (non-negative) before-due offset is strictly below
`daysUntilDue` (and after-due offsets are non-negative, before-due offsets
non-empty), every event the planner returns is scheduled strictly after
today — none is yet due.  The claim's "returns an empty list" fails
(`C5_counterexample` exhibits a non-empty result), but emptiness of what is
returned is not guaranteed either way: `maxReminders` may truncate the list,
down to `[]` when it is 0. -/
theorem C5_future_events_not_due (config : ReminderConfig) (today : Int)
    (invoice : InvoiceReminderData)
    (hb : ∀ d ∈ config.daysBeforeDue, 0 ≤ d)
    (ha : ∀ a ∈ config.daysAfterDue, 0 ≤ a)
    (hne : config.daysBeforeDue ≠ [])
    (hmax : ∀ d ∈ config.daysBeforeDue, d < invoice.dueDate - today) :
    ∀ r ∈ calculateReminders config today invoice, today < r.scheduledFor := by
  have hpos : 0 < invoice.dueDate - today := by
    obtain ⟨d0, hd0⟩ := List.exists_mem_of_ne_nil _ hne
    exact lt_of_le_of_lt (hb d0 hd0) (hmax d0 hd0)
  intro r hr
  simp only [calculateReminders] at hr
  replace hr := List.take_subset _ _ hr
  simp only [List.mem_append, List.mem_map, List.mem_filter,
    decide_eq_true_eq] at hr
  rcases hr with ⟨d, ⟨hd, _⟩, rfl⟩ | ⟨a, ⟨haa, hcond⟩, rfl⟩
  · have := hmax d hd
    simp only [beforeDueReminder]
    omega
  · have h1 := ha a haa
    omega

/-- Witness for C5: for the invoice due in 100 days under the default
configuration, the offset-3 event is in the plan but scheduled in the
future. -/
theorem C5_future_events_not_due_witness :
    (0 : Int) < (beforeDueReminder invoiceDueIn100 0 100 3).scheduledFor :=
  C5_future_events_not_due DEFAULT_CONFIG 0 invoiceDueIn100
    (by decide) (by decide) (by decide) (by decide)
    (beforeDueReminder invoiceDueIn100 0 100 3) (by decide)

/-- C6 counterexample: for the invoice due in 3 days under the default
configuration, the event generated by the offset `d = 1` (id
`rem_INV-1_before_1`) carries the standard template although `d ≤ 1`: the
source selects the template from `daysUntilDue`, not from the offset. -/
theorem C6_counterexample :
    (calculateReminders DEFAULT_CONFIG 0 invoiceDueIn3).map
        (fun r => (r.id, r.template)) =
      [("rem_INV-1_before_3", "payment_reminder"),
       ("rem_INV-1_before_1", "payment_reminder")] := by decide

/-- C6 amended: an emitted due-soon event carries the urgent template variant
if and only if `daysUntilDue ≤ 1`; the selected variant does not depend on
which before-due offset `d` produced the event. -/
theorem C6_urgent_iff_near_due (config : ReminderConfig) (today : Int)
    (invoice : InvoiceReminderData) (r : Reminder)
    (hr : r ∈ calculateReminders config today invoice) (ht : r.type = .due_soon) :
    (r.template = "payment_reminder_urgent" ↔ invoice.dueDate - today ≤ 1) := by
  simp only [calculateReminders] at hr
  replace hr := List.take_subset _ _ hr
  simp only [List.mem_append, List.mem_map, List.mem_filter,
    decide_eq_true_eq] at hr
  rcases hr with ⟨d, ⟨_, _⟩, rfl⟩ | ⟨a, ⟨_, _⟩, rfl⟩
  · simp only [beforeDueReminder]
    split_ifs with hle
    · exact iff_of_true rfl hle
    · exact iff_of_false (by decide) hle
  · exact absurd ht (by simpa [afterDueReminder] using overdueType_ne_due_soon a)

/-- Witness for C6: the offset-3 event of the invoice due in 3 days is not
urgent, matching `daysUntilDue = 3 > 1`. -/
theorem C6_urgent_iff_near_due_witness :
    ((beforeDueReminder invoiceDueIn3 0 3 3).template = "payment_reminder_urgent" ↔
      invoiceDueIn3.dueDate - 0 ≤ 1) :=
  C6_urgent_iff_near_due DEFAULT_CONFIG 0 invoiceDueIn3
    (beforeDueReminder invoiceDueIn3 0 3 3) (by decide) (by decide)

/-- C2 counterexample: for the invoice due in 3 days under the default
configuration both before-due offsets qualify, and the planner emits two
events with the same escalation tier `due_soon` in a single pass — the
source deduplicates neither by tier nor by bucket. -/
theorem C2_counterexample :
    (calculateReminders DEFAULT_CONFIG 0 invoiceDueIn3).map Reminder.type =
      [.due_soon, .due_soon] := by decide

/-- C2 amended: in one planning pass (without truncation) the planner emits
exactly one event per qualifying offset: the events with tier `due_soon` are
in bijection with the qualifying before-due offsets and the remaining events
with the qualifying after-due offsets; hence several events share a tier
whenever more than one offset of the same bucket qualifies. -/
theorem C2_one_event_per_offset (config : ReminderConfig) (today : Int)
    (invoice : InvoiceReminderData)
    (hmax : (config.daysBeforeDue.filter
          (fun days => invoice.dueDate - today ≥ days)).length +
        (config.daysAfterDue.filter
          (fun days => invoice.dueDate - today < -days)).length ≤
        config.maxReminders) :
    ((calculateReminders config today invoice).filter
        (fun r => r.type == ReminderType.due_soon)).length =
      (config.daysBeforeDue.filter
        (fun days => invoice.dueDate - today ≥ days)).length ∧
    ((calculateReminders config today invoice).filter
        (fun r => r.type != ReminderType.due_soon)).length =
      (config.daysAfterDue.filter
        (fun days => invoice.dueDate - today < -days)).length := by
  have heq : calculateReminders config today invoice =
      ((config.daysBeforeDue.filter
          (fun days => invoice.dueDate - today ≥ days)).map
        (fun days => beforeDueReminder invoice today (invoice.dueDate - today) days)) ++
      ((config.daysAfterDue.filter
          (fun days => invoice.dueDate - today < -days)).map
        (fun days => afterDueReminder invoice invoice.dueDate days)) := by
    simp only [calculateReminders]
    apply List.take_of_length_le
    simpa using hmax
  refine ⟨?_, ?_⟩
  · rw [heq, List.filter_append, List.filter_map, List.filter_map]
    simp [Function.comp, beforeDueReminder, afterDueReminder,
      overdueType_ne_due_soon]
  · rw [heq, List.filter_append, List.filter_map, List.filter_map]
    simp [Function.comp, beforeDueReminder, afterDueReminder,
      overdueType_ne_due_soon]
    congr 1
    refine List.filter_congr (fun a _ => ?_)
    have hne : (overdueType a != ReminderType.due_soon) = true := by
      simp [bne_iff_ne, overdueType_ne_due_soon a]
    simp [hne]

/-- Witness for C2 at the invoice due in 3 days with the default
configuration: two qualifying before-due offsets give two due-soon events,
and no after-due offset qualifies. -/
theorem C2_one_event_per_offset_witness :
    ((calculateReminders DEFAULT_CONFIG 0 invoiceDueIn3).filter
        (fun r => r.type == ReminderType.due_soon)).length =
      (DEFAULT_CONFIG.daysBeforeDue.filter
        (fun days => invoiceDueIn3.dueDate - 0 ≥ days)).length ∧
    ((calculateReminders DEFAULT_CONFIG 0 invoiceDueIn3).filter
        (fun r => r.type != ReminderType.due_soon)).length =
      (DEFAULT_CONFIG.daysAfterDue.filter
        (fun days => invoiceDueIn3.dueDate - 0 < -days)).length :=
  C2_one_event_per_offset DEFAULT_CONFIG 0 invoiceDueIn3 (by decide)

/-- A reminder the processor attempts to dispatch: status `pending` and
scheduled date already reached (the guard of the inner loop of
`processPendingReminders`). -/
def isDue (today : Int) (r : Reminder) : Bool :=
  r.status == .pending && decide (r.scheduledFor ≤ today)

/-- Whether the dispatch of a reminder throws: email is enabled and the
awaited `sendEmail` call rejects. -/
def dispatchThrows (config : ReminderConfig) (outcomeOf : Reminder → EmailOutcome)
    (r : Reminder) : Bool :=
  config.enableEmail && (outcomeOf r == EmailOutcome.throws)

/-- `sendReminder` resolves with `true` and the reminder marked `sent`
whenever the awaited email call does not throw. -/
theorem sendReminder_ok (config : ReminderConfig) (outcome : EmailOutcome)
    (now : Int) (reminder : Reminder)
    (h : ¬(config.enableEmail = true ∧ outcome = EmailOutcome.throws)) :
    sendReminder config outcome now reminder =
      .ok (true, { reminder with status := .sent, sentAt := some now }) := by
  unfold sendReminder
  cases he : config.enableEmail with
  | false => simp
  | true =>
      cases outcome with
      | resolves s => simp
      | throws => exact absurd ⟨he, rfl⟩ h

/-- `sendReminder` propagates the rejection of the awaited email call. -/
theorem sendReminder_error (config : ReminderConfig) (outcome : EmailOutcome)
    (now : Int) (reminder : Reminder)
    (he : config.enableEmail = true) (ho : outcome = EmailOutcome.throws) :
    sendReminder config outcome now reminder = .error () := by
  subst ho
  simp [sendReminder, he]

/-- One step of the dispatch loop: a non-due reminder leaves the tallies
unchanged; a due reminder increments `failed` exactly when the dispatch
throws and `sent` otherwise. -/
theorem processOneReminder_eq (config : ReminderConfig)
    (outcomeOf : Reminder → EmailOutcome) (today : Int) (acc : Nat × Nat)
    (r : Reminder) :
    processOneReminder config outcomeOf today acc r =
      if isDue today r then
        if dispatchThrows config outcomeOf r then (acc.1, acc.2 + 1)
        else (acc.1 + 1, acc.2)
      else acc := by
  unfold processOneReminder
  by_cases hd : r.status = ReminderStatus.pending ∧ r.scheduledFor ≤ today
  · have hd' : isDue today r = true := by
      simp only [isDue, Bool.and_eq_true, beq_iff_eq, decide_eq_true_eq]
      exact hd
    rw [if_pos hd, if_pos hd']
    by_cases hth : dispatchThrows config outcomeOf r = true
    · have hth2 := hth
      simp only [dispatchThrows, Bool.and_eq_true, beq_iff_eq] at hth2
      rw [sendReminder_error _ _ _ _ hth2.1 hth2.2, if_pos hth]
    · have hth' : ¬(config.enableEmail = true ∧ outcomeOf r = EmailOutcome.throws) := by
        simpa only [dispatchThrows, Bool.and_eq_true, beq_iff_eq] using hth
      rw [sendReminder_ok _ _ _ _ hth', if_neg hth]
      rfl
  · have hd' : ¬(isDue today r = true) := by
      simp only [isDue, Bool.and_eq_true, beq_iff_eq, decide_eq_true_eq]
      exact hd
    rw [if_neg hd, if_neg hd']

/-- Closed form of the dispatch loop of one invoice: each due reminder
contributes to exactly one of the two tallies. -/
theorem foldl_processOneReminder (config : ReminderConfig)
    (outcomeOf : Reminder → EmailOutcome) (today : Int) (rs : List Reminder) :
    ∀ acc : Nat × Nat,
      rs.foldl (processOneReminder config outcomeOf today) acc =
        (acc.1 + rs.countP
            (fun r => isDue today r && !dispatchThrows config outcomeOf r),
         acc.2 + rs.countP
            (fun r => isDue today r && dispatchThrows config outcomeOf r)) := by
  induction rs with
  | nil => intro acc; simp
  | cons r rs ih =>
      intro acc
      rw [List.foldl_cons, ih, processOneReminder_eq,
        List.countP_cons, List.countP_cons]
      by_cases h1 : isDue today r <;>
        by_cases h2 : dispatchThrows config outcomeOf r <;>
          simp [h1, h2, Prod.ext_iff] <;> omega

/-- C9: `processPendingReminders` always returns a `{sent, failed}` summary
for the whole batch: every due reminder of every invoice is attempted and
tallied exactly once — a thrown dispatch error is caught and counted in
`failed`, and it never aborts the remaining reminders of the same invoice or
the processing of the other invoices of the cycle. -/
theorem C9_errors_do_not_abort_batch (config : ReminderConfig)
    (outcomeOf : Reminder → EmailOutcome) (today : Int)
    (invoices : List InvoiceReminderData) :
    processPendingReminders config outcomeOf today invoices =
      ((invoices.map (fun invoice =>
          (calculateReminders config today invoice).countP
            (fun r => isDue today r && !dispatchThrows config outcomeOf r))).sum,
       (invoices.map (fun invoice =>
          (calculateReminders config today invoice).countP
            (fun r => isDue today r && dispatchThrows config outcomeOf r))).sum) := by
  unfold processPendingReminders
  have main : ∀ (invs : List InvoiceReminderData) (acc : Nat × Nat),
      invs.foldl (fun acc invoice =>
          (calculateReminders config today invoice).foldl
            (processOneReminder config outcomeOf today) acc) acc =
        (acc.1 + (invs.map (fun invoice =>
            (calculateReminders config today invoice).countP
              (fun r => isDue today r && !dispatchThrows config outcomeOf r))).sum,
         acc.2 + (invs.map (fun invoice =>
            (calculateReminders config today invoice).countP
              (fun r => isDue today r && dispatchThrows config outcomeOf r))).sum) := by
    intro invs
    induction invs with
    | nil => intro acc; simp
    | cons i is ih =>
        intro acc
        rw [List.foldl_cons, ih, foldl_processOneReminder]
        simp [Prod.ext_iff]
        omega
  rw [main]
  simp

/-- Cadence with a single after-due offset and `maxReminders = 1`, so that
exactly one (invoice, tier) pair is in play for the C1 scenario. -/
def singleTierConfig : ReminderConfig :=
  { daysBeforeDue := [3, 1]
    daysAfterDue := [7]
    enableEmail := true
    enablePush := true
    maxReminders := 1 }

/-- C1: the code has no persisted dispatch state — `processPendingReminders`
recomputes the plan on every cycle, every recomputed reminder has status
`pending` again, and the `status === 'pending'` check therefore never skips a
previously sent event.  For the invoice 10 days overdue under
`singleTierConfig`, each cycle plans exactly one due `overdue_7` reminder for
the same (invoice, tier) pair and dispatches it successfully, so two cycles
over the same unchanged batch record two successful dispatches for that pair
instead of at most one. -/
theorem C1_repeated_dispatch :
    (calculateReminders singleTierConfig 0 invoiceOverdue10).map
        (fun r => (r.invoiceId, r.type, r.status, isDue 0 r)) =
      [("INV-2", ReminderType.overdue_7, ReminderStatus.pending, true)] ∧
    processPendingReminders singleTierConfig (fun _ => .resolves true) 0
        [invoiceOverdue10] = (1, 0) ∧
    (processPendingReminders singleTierConfig (fun _ => .resolves true) 0
          [invoiceOverdue10]).1 +
        (processPendingReminders singleTierConfig (fun _ => .resolves true) 0
          [invoiceOverdue10]).1 = 2 := by
  refine ⟨by decide, by decide, by decide⟩
